import Mathlib

/-!
# Shallow embedding of the SPDX data model (`src/document.py`)

The repository is a single Python module defining an in-memory SPDX 3.0
document model: an abstract `IntegrityMethod` capability (an ABC with
abstract `generate`/`verify`), its concrete `Hash` variant, plain record
classes `ExternalReference` and `SpdxDocumentReference`, a base
`SpdxElement`, the `RelationshipType` enumeration, and the derived
classes `Relationship`, `Identity`, `SpdxDocument`, `Artifact`,
`Package`, `File` and `Snippet`.

The embedding models Python's dynamic values with one type `PyVal`.
Two pieces of Python semantics matter for the claims and are modelled
explicitly:

* Default parameter expressions are evaluated once, at function
  definition time.  The module's list-typed defaults
  (`[ExternalReference]`, `[SpdxDocumentReference]`, `[]`) therefore
  each denote a single module-level list object, shared by every call
  that omits the argument.  We model list objects by address
  (`PyVal.listRef`) and record the contents of the six module-level
  default list objects in `moduleHeap`.
* Several defaults are class objects themselves (e.g.
  `verification=IntegrityMethod`, `supplier=Identity`); these are
  modelled as `PyVal.classObj` with the class's name.

Each `__init__` becomes a total function taking one `Option PyVal` per
parameter (`none` = argument omitted, `some v` = argument passed), and
a subclass resolves its own defaults before delegating, exactly as the
Python code passes its resolved locals to `super().__init__`.
-/

namespace SpdxDataModel

/-- The `RelationshipType` enumeration of `document.py`: sixteen members
declared with `auto()`. -/
inductive RelationshipType where
  | DESCRIBES
  | DESCRIBED_BY
  | CONTAINS
  | CONTAINED_BY
  | DEPENDS_ON
  | DEPENDENCY_OF
  | DEPENDENCY_MANIFEST_OF
  | BUILD_DEPENDENCY_OF
  | DEV_DEPENDENCY_OF
  | OPTIONAL_DEPENDENCY_OF
  | PROVIDED_DEPENDENCY_OF
  | TEST_DEPENDENCY_OF
  | RUNTIME_DEPENDENCY_OF
  | EXAMPLE_OF
  | GENERATES
  | GENERATED_FROM
  deriving DecidableEq, Repr, Fintype

/-- The list of all sixteen `RelationshipType` members, in declaration
order. -/
def allRelationshipTypes : List RelationshipType :=
  [.DESCRIBES, .DESCRIBED_BY, .CONTAINS, .CONTAINED_BY, .DEPENDS_ON,
   .DEPENDENCY_OF, .DEPENDENCY_MANIFEST_OF, .BUILD_DEPENDENCY_OF,
   .DEV_DEPENDENCY_OF, .OPTIONAL_DEPENDENCY_OF, .PROVIDED_DEPENDENCY_OF,
   .TEST_DEPENDENCY_OF, .RUNTIME_DEPENDENCY_OF, .EXAMPLE_OF,
   .GENERATES, .GENERATED_FROM]

/-- Python runtime values as the module uses them: strings, integers,
floats (exact rationals suffice for the literal `3.0`), `None`, class
objects (used as default parameter values throughout `document.py`),
list objects identified by heap address, and `RelationshipType` enum
members. -/
inductive PyVal where
  | str (s : String)
  | int (n : Int)
  | float (q : Rat)
  | pyNone
  | classObj (name : String)
  | listRef (addr : Nat)
  | relMember (t : RelationshipType)
  deriving DecidableEq, Repr

/-- Address of the list object created once for the default
`external_references=[ExternalReference]` of `Artifact.__init__`. -/
def artifactExternalReferencesDefaultAddr : Nat := 0

/-- Address of the list object created once for the default
`external_document_references=[SpdxDocumentReference]` of
`SpdxDocument.__init__`. -/
def documentExternalDocumentReferencesDefaultAddr : Nat := 1

/-- Address of the list object created once for the default
`profiles=[]` of `SpdxDocument.__init__`. -/
def documentProfilesDefaultAddr : Nat := 2

/-- Address of the list object created once for the default
`external_references=[ExternalReference]` of `Package.__init__`. -/
def packageExternalReferencesDefaultAddr : Nat := 3

/-- Address of the list object created once for the default
`external_references=[ExternalReference]` of `File.__init__`. -/
def fileExternalReferencesDefaultAddr : Nat := 4

/-- Address of the list object created once for the default
`external_references=[ExternalReference]` of `Snippet.__init__`. -/
def snippetExternalReferencesDefaultAddr : Nat := 5

/-- Contents of the module-level default list objects, fixed when
`document.py` is loaded: `[ExternalReference]` and
`[SpdxDocumentReference]` are one-element lists holding the class
object itself; `profiles=[]` is empty. -/
def moduleHeap : Nat → List PyVal
  | 0 => [.classObj "ExternalReference"]
  | 1 => [.classObj "SpdxDocumentReference"]
  | 2 => []
  | 3 => [.classObj "ExternalReference"]
  | 4 => [.classObj "ExternalReference"]
  | 5 => [.classObj "ExternalReference"]
  | _ => []

/-- A Python class as Python's ABC machinery sees it at instantiation:
its name and the abstract methods it leaves unimplemented. -/
structure PyAbstractClass where
  name : String
  unimplemented : List String
  deriving DecidableEq, Repr

/-- Outcome of calling a class: an instance, or the `TypeError` CPython
raises when an ABC with unimplemented abstract methods is called. -/
inductive PyConstructionResult where
  | ok (className : String)
  | typeError (className : String)
  deriving DecidableEq, Repr

/-- Python's ABC instantiation rule: calling a class whose set of
unimplemented abstract methods is non-empty raises `TypeError`;
otherwise construction proceeds. -/
def instantiateClass (c : PyAbstractClass) : PyConstructionResult :=
  if c.unimplemented.isEmpty then .ok c.name else .typeError c.name

/-- `class IntegrityMethod(ABC)`: both `generate` and `verify` are
`@abstractmethod` and neither has an implementation. -/
def IntegrityMethodClass : PyAbstractClass :=
  { name := "IntegrityMethod", unimplemented := ["generate", "verify"] }

/-- `class Hash(IntegrityMethod)`: overrides both `generate` and
`verify`, so no abstract method is left unimplemented. -/
def HashClass : PyAbstractClass :=
  { name := "Hash", unimplemented := [] }

/-- `Hash`: attributes `HashAlgorithm` and `Value`. -/
structure Hash where
  HashAlgorithm : PyVal
  Value : PyVal
  deriving DecidableEq, Repr

/-- `Hash.__init__(self, algo="", value="")`. -/
def Hash.init (algo value : Option PyVal) : Hash :=
  { HashAlgorithm := algo.getD (.str "")
    Value := value.getD (.str "") }

/-- `Hash.generate(self)`: `return ""`. -/
def Hash.generate (_ : Hash) : PyVal := .str ""

/-- `Hash.verify(self, value="")`: `return value`. -/
def Hash.verify (_ : Hash) (value : Option PyVal) : PyVal :=
  value.getD (.str "")

/-- `ExternalReference`: attributes `Category`, `Type`, `Locator`,
`Comment` (the Lean field for the `Type` attribute is written
`«Type»` because `Type` is reserved). -/
structure ExternalReference where
  Category : PyVal
  «Type» : PyVal
  Locator : PyVal
  Comment : PyVal
  deriving DecidableEq, Repr

/-- `ExternalReference.__init__(self, category="", reftype="",
locator="", comment="")`. -/
def ExternalReference.init (category reftype locator comment : Option PyVal) :
    ExternalReference :=
  { Category := category.getD (.str "")
    «Type» := reftype.getD (.str "")
    Locator := locator.getD (.str "")
    Comment := comment.getD (.str "") }

/-- `SpdxDocumentReference`: attributes `DocumentRef`, `Locator`,
`VerifiedWith`. -/
structure SpdxDocumentReference where
  DocumentRef : PyVal
  Locator : PyVal
  VerifiedWith : PyVal
  deriving DecidableEq, Repr

/-- `SpdxDocumentReference.__init__(self, document_ref="", locator="",
verification=IntegrityMethod)`: the default for `verification` is the
`IntegrityMethod` class object itself. -/
def SpdxDocumentReference.init (document_ref locator verification : Option PyVal) :
    SpdxDocumentReference :=
  { DocumentRef := document_ref.getD (.str "")
    Locator := locator.getD (.str "")
    VerifiedWith := verification.getD (.classObj "IntegrityMethod") }

/-- `SpdxElement`: attributes `SPDXID`, `Name`, `Summary`,
`Description`, `Comment`, `VerifiedWith`. -/
structure SpdxElement where
  SPDXID : PyVal
  Name : PyVal
  Summary : PyVal
  Description : PyVal
  Comment : PyVal
  VerifiedWith : PyVal
  deriving DecidableEq, Repr

/-- `SpdxElement.__init__(self, name="", summary="", description="",
comment="", verification=IntegrityMethod)`: `SPDXID` is always set to
`""`; the default for `verification` is the `IntegrityMethod` class
object itself. -/
def SpdxElement.init (name summary description comment verification : Option PyVal) :
    SpdxElement :=
  { SPDXID := .str ""
    Name := name.getD (.str "")
    Summary := summary.getD (.str "")
    Description := description.getD (.str "")
    Comment := comment.getD (.str "")
    VerifiedWith := verification.getD (.classObj "IntegrityMethod") }

/-- `Relationship(SpdxElement)`: adds `RelationshipType`, `From`, `To`
and (with the source's typo) `VerfiedWith`. -/
structure Relationship extends SpdxElement where
  RelationshipType : PyVal
  From : PyVal
  To : PyVal
  VerfiedWith : PyVal
  deriving DecidableEq, Repr

/-- `Relationship.__init__(self, name="", summary="", description="",
comment="", verification=IntegrityMethod,
relationship_type=RelationshipType, from_element=SpdxElement,
to_element=SpdxElement)`: delegates the first five to
`SpdxElement.__init__`, then stores the rest; `self.VerfiedWith` is
set to the same resolved `verification`. -/
def Relationship.init
    (name summary description comment verification relationship_type
      from_element to_element : Option PyVal) : Relationship :=
  { toSpdxElement := SpdxElement.init name summary description comment verification
    RelationshipType := relationship_type.getD (.classObj "RelationshipType")
    From := from_element.getD (.classObj "SpdxElement")
    To := to_element.getD (.classObj "SpdxElement")
    VerfiedWith := verification.getD (.classObj "IntegrityMethod") }

/-- `Identity(SpdxElement)`: adds `Email`. -/
structure Identity extends SpdxElement where
  Email : PyVal
  deriving DecidableEq, Repr

/-- `Identity.__init__(self, name="", summary="", description="",
comment="", verification=IntegrityMethod, email="")`. -/
def Identity.init
    (name summary description comment verification email : Option PyVal) : Identity :=
  { toSpdxElement := SpdxElement.init name summary description comment verification
    Email := email.getD (.str "") }

/-- `SpdxDocument(SpdxElement)`: adds `SPDXVersion`, `DataLicense`,
`Namespace`, `Created`, `Creator`, `ExternalDocumentReferences`,
`Profiles`. -/
structure SpdxDocument extends SpdxElement where
  SPDXVersion : PyVal
  DataLicense : PyVal
  Namespace : PyVal
  Created : PyVal
  Creator : PyVal
  ExternalDocumentReferences : PyVal
  Profiles : PyVal
  deriving DecidableEq, Repr

/-- `SpdxDocument.__init__(self, name="", summary="", description="",
comment="", verification=IntegrityMethod, namespace="", created="",
creator=Identity, external_document_references=[SpdxDocumentReference],
profiles=[])`: `SPDXVersion` and `DataLicense` are assigned the literal
`3.0` unconditionally; the two list defaults are the module-level list
objects at addresses 1 and 2. -/
def SpdxDocument.init
    (name summary description comment verification nspace created creator
      external_document_references profiles : Option PyVal) : SpdxDocument :=
  { toSpdxElement := SpdxElement.init name summary description comment verification
    SPDXVersion := .float 3
    DataLicense := .float 3
    Namespace := nspace.getD (.str "")
    Created := created.getD (.str "")
    Creator := creator.getD (.classObj "Identity")
    ExternalDocumentReferences :=
      external_document_references.getD
        (.listRef documentExternalDocumentReferencesDefaultAddr)
    Profiles := profiles.getD (.listRef documentProfilesDefaultAddr) }

/-- `Artifact(SpdxElement)`: adds `ArtifactUrl`, `Supplier`,
`Originator`, `ExternalReferences`. -/
structure Artifact extends SpdxElement where
  ArtifactUrl : PyVal
  Supplier : PyVal
  Originator : PyVal
  ExternalReferences : PyVal
  deriving DecidableEq, Repr

/-- `Artifact.__init__(self, name="", summary="", description="",
comment="", verification=IntegrityMethod, artifact_url="",
supplier=Identity, originator=Identity,
external_references=[ExternalReference])`: the list default is the
module-level list object at address 0. -/
def Artifact.init
    (name summary description comment verification artifact_url supplier
      originator external_references : Option PyVal) : Artifact :=
  { toSpdxElement := SpdxElement.init name summary description comment verification
    ArtifactUrl := artifact_url.getD (.str "")
    Supplier := supplier.getD (.classObj "Identity")
    Originator := originator.getD (.classObj "Identity")
    ExternalReferences :=
      external_references.getD (.listRef artifactExternalReferencesDefaultAddr) }

/-- `Package(Artifact)`: adds `Version`. -/
structure Package extends Artifact where
  Version : PyVal
  deriving DecidableEq, Repr

/-- `Package.__init__(...)`: resolves its own defaults (its
`[ExternalReference]` default is its own module-level list object, at
address 3) and passes the resolved values to `Artifact.__init__`, then
stores `Version`. -/
def Package.init
    (name summary description comment verification artifact_url supplier
      originator external_references version : Option PyVal) : Package :=
  { toArtifact :=
      Artifact.init
        (some (name.getD (.str ""))) (some (summary.getD (.str "")))
        (some (description.getD (.str ""))) (some (comment.getD (.str "")))
        (some (verification.getD (.classObj "IntegrityMethod")))
        (some (artifact_url.getD (.str "")))
        (some (supplier.getD (.classObj "Identity")))
        (some (originator.getD (.classObj "Identity")))
        (some (external_references.getD
          (.listRef packageExternalReferencesDefaultAddr)))
    Version := version.getD (.str "") }

/-- `File(Artifact)`: adds `FileType`. -/
structure File extends Artifact where
  FileType : PyVal
  deriving DecidableEq, Repr

/-- `File.__init__(...)`: resolves its own defaults (its
`[ExternalReference]` default is its own module-level list object, at
address 4) and passes them to `Artifact.__init__`, then stores
`FileType`. -/
def File.init
    (name summary description comment verification artifact_url supplier
      originator external_references file_type : Option PyVal) : File :=
  { toArtifact :=
      Artifact.init
        (some (name.getD (.str ""))) (some (summary.getD (.str "")))
        (some (description.getD (.str ""))) (some (comment.getD (.str "")))
        (some (verification.getD (.classObj "IntegrityMethod")))
        (some (artifact_url.getD (.str "")))
        (some (supplier.getD (.classObj "Identity")))
        (some (originator.getD (.classObj "Identity")))
        (some (external_references.getD
          (.listRef fileExternalReferencesDefaultAddr)))
    FileType := file_type.getD (.str "") }

/-- `Snippet(Artifact)`: adds `ByteRange` and `LineRange`. -/
structure Snippet extends Artifact where
  ByteRange : PyVal
  LineRange : PyVal
  deriving DecidableEq, Repr

/-- `Snippet.__init__(...)`: resolves its own defaults (its
`[ExternalReference]` default is its own module-level list object, at
address 5; `byte_range=0`, `line_range=0`) and passes the shared part
to `Artifact.__init__`, then stores the two ranges. -/
def Snippet.init
    (name summary description comment verification artifact_url supplier
      originator external_references byte_range line_range : Option PyVal) : Snippet :=
  { toArtifact :=
      Artifact.init
        (some (name.getD (.str ""))) (some (summary.getD (.str "")))
        (some (description.getD (.str ""))) (some (comment.getD (.str "")))
        (some (verification.getD (.classObj "IntegrityMethod")))
        (some (artifact_url.getD (.str "")))
        (some (supplier.getD (.classObj "Identity")))
        (some (originator.getD (.classObj "Identity")))
        (some (external_references.getD
          (.listRef snippetExternalReferencesDefaultAddr)))
    ByteRange := byte_range.getD (.int 0)
    LineRange := line_range.getD (.int 0) }

/-! ## Theorems settling the claims -/

/-- Claim C1, the code evaluated at the failing input: a `Package`
constructed with `version="1.2.3"` and no `external_references`
argument is constructed without error (its `Version` is stored), but
its `ExternalReferences` attribute is the module-level default list
object `[ExternalReference]` — a one-element list holding the
`ExternalReference` class object, not an empty sequence. -/
theorem c1_package_default_external_refs_is_nonempty_class_list :
    (Package.init none none none none none none none none none
        (some (.str "1.2.3"))).Version = PyVal.str "1.2.3" ∧
    (Package.init none none none none none none none none none
        (some (.str "1.2.3"))).ExternalReferences
      = PyVal.listRef packageExternalReferencesDefaultAddr ∧
    moduleHeap packageExternalReferencesDefaultAddr
      = [PyVal.classObj "ExternalReference"] ∧
    (moduleHeap packageExternalReferencesDefaultAddr).length = 1 :=
  ⟨rfl, rfl, rfl, rfl⟩

/-- Claim C2, counterexample: an `SpdxElement` constructed with every
parameter omitted stores the `IntegrityMethod` class object in
`VerifiedWith`, which is neither the empty string, nor zero, nor
`None` — so not every omitted parameter defaults into
{empty string, zero, None}. -/
theorem c2_counterexample_verification_default_not_in_claimed_set :
    (SpdxElement.init none none none none none).VerifiedWith
        = PyVal.classObj "IntegrityMethod" ∧
    (SpdxElement.init none none none none none).VerifiedWith ≠ PyVal.str "" ∧
    (SpdxElement.init none none none none none).VerifiedWith ≠ PyVal.int 0 ∧
    (SpdxElement.init none none none none none).VerifiedWith ≠ PyVal.pyNone := by
  refine ⟨rfl, ?_, ?_, ?_⟩ <;> decide

/-- Claim C2 as amended: every constructor parameter of every entity
type is optional, and a wholly default construction succeeds and
yields these exact attribute values — empty strings and zeros for
scalar fields, but class objects (`IntegrityMethod`, `Identity`,
`SpdxElement`, `RelationshipType`) for verification-, identity-,
element- and enum-typed fields, and module-level default list objects
for list-typed fields; `None` is never a default. -/
theorem c2_amended_every_parameter_optional_with_source_defaults :
    SpdxElement.init none none none none none =
      { SPDXID := .str "", Name := .str "", Summary := .str "",
        Description := .str "", Comment := .str "",
        VerifiedWith := .classObj "IntegrityMethod" } ∧
    Identity.init none none none none none none =
      { SPDXID := .str "", Name := .str "", Summary := .str "",
        Description := .str "", Comment := .str "",
        VerifiedWith := .classObj "IntegrityMethod", Email := .str "" } ∧
    Relationship.init none none none none none none none none =
      { SPDXID := .str "", Name := .str "", Summary := .str "",
        Description := .str "", Comment := .str "",
        VerifiedWith := .classObj "IntegrityMethod",
        RelationshipType := .classObj "RelationshipType",
        From := .classObj "SpdxElement", To := .classObj "SpdxElement",
        VerfiedWith := .classObj "IntegrityMethod" } ∧
    Artifact.init none none none none none none none none none =
      { SPDXID := .str "", Name := .str "", Summary := .str "",
        Description := .str "", Comment := .str "",
        VerifiedWith := .classObj "IntegrityMethod", ArtifactUrl := .str "",
        Supplier := .classObj "Identity", Originator := .classObj "Identity",
        ExternalReferences := .listRef artifactExternalReferencesDefaultAddr } ∧
    Package.init none none none none none none none none none none =
      { SPDXID := .str "", Name := .str "", Summary := .str "",
        Description := .str "", Comment := .str "",
        VerifiedWith := .classObj "IntegrityMethod", ArtifactUrl := .str "",
        Supplier := .classObj "Identity", Originator := .classObj "Identity",
        ExternalReferences := .listRef packageExternalReferencesDefaultAddr,
        Version := .str "" } ∧
    File.init none none none none none none none none none none =
      { SPDXID := .str "", Name := .str "", Summary := .str "",
        Description := .str "", Comment := .str "",
        VerifiedWith := .classObj "IntegrityMethod", ArtifactUrl := .str "",
        Supplier := .classObj "Identity", Originator := .classObj "Identity",
        ExternalReferences := .listRef fileExternalReferencesDefaultAddr,
        FileType := .str "" } ∧
    Snippet.init none none none none none none none none none none none =
      { SPDXID := .str "", Name := .str "", Summary := .str "",
        Description := .str "", Comment := .str "",
        VerifiedWith := .classObj "IntegrityMethod", ArtifactUrl := .str "",
        Supplier := .classObj "Identity", Originator := .classObj "Identity",
        ExternalReferences := .listRef snippetExternalReferencesDefaultAddr,
        ByteRange := .int 0, LineRange := .int 0 } ∧
    SpdxDocument.init none none none none none none none none none none =
      { SPDXID := .str "", Name := .str "", Summary := .str "",
        Description := .str "", Comment := .str "",
        VerifiedWith := .classObj "IntegrityMethod",
        SPDXVersion := .float 3, DataLicense := .float 3,
        Namespace := .str "", Created := .str "",
        Creator := .classObj "Identity",
        ExternalDocumentReferences :=
          .listRef documentExternalDocumentReferencesDefaultAddr,
        Profiles := .listRef documentProfilesDefaultAddr } :=
  ⟨rfl, rfl, rfl, rfl, rfl, rfl, rfl, rfl⟩

/-- Claim C3: round-trip identity — for every entity type and every
tuple of values supplied at construction, each public attribute equals
the value supplied for it; in particular a `Hash` constructed with
algorithm `"SHA256"` and value `"abc123"` exposes them unchanged (in
the attributes `HashAlgorithm` and `Value`). -/
theorem c3_construction_round_trip_identity :
    (∀ a v : PyVal,
      (Hash.init (some a) (some v)).HashAlgorithm = a ∧
      (Hash.init (some a) (some v)).Value = v) ∧
    (∀ c t l m : PyVal,
      (ExternalReference.init (some c) (some t) (some l) (some m)).Category = c ∧
      (ExternalReference.init (some c) (some t) (some l) (some m)).«Type» = t ∧
      (ExternalReference.init (some c) (some t) (some l) (some m)).Locator = l ∧
      (ExternalReference.init (some c) (some t) (some l) (some m)).Comment = m) ∧
    (∀ d l v : PyVal,
      (SpdxDocumentReference.init (some d) (some l) (some v)).DocumentRef = d ∧
      (SpdxDocumentReference.init (some d) (some l) (some v)).Locator = l ∧
      (SpdxDocumentReference.init (some d) (some l) (some v)).VerifiedWith = v) ∧
    (∀ n s d c v : PyVal,
      (SpdxElement.init (some n) (some s) (some d) (some c) (some v)).Name = n ∧
      (SpdxElement.init (some n) (some s) (some d) (some c) (some v)).Summary = s ∧
      (SpdxElement.init (some n) (some s) (some d) (some c) (some v)).Description = d ∧
      (SpdxElement.init (some n) (some s) (some d) (some c) (some v)).Comment = c ∧
      (SpdxElement.init (some n) (some s) (some d) (some c) (some v)).VerifiedWith = v) ∧
    (∀ n s d c v e : PyVal,
      (Identity.init (some n) (some s) (some d) (some c) (some v) (some e)).Name = n ∧
      (Identity.init (some n) (some s) (some d) (some c) (some v) (some e)).Summary = s ∧
      (Identity.init (some n) (some s) (some d) (some c) (some v)
        (some e)).Description = d ∧
      (Identity.init (some n) (some s) (some d) (some c) (some v) (some e)).Comment = c ∧
      (Identity.init (some n) (some s) (some d) (some c) (some v)
        (some e)).VerifiedWith = v ∧
      (Identity.init (some n) (some s) (some d) (some c) (some v) (some e)).Email = e) ∧
    (∀ n s d c v rt fe te : PyVal,
      (Relationship.init (some n) (some s) (some d) (some c) (some v) (some rt)
        (some fe) (some te)).Name = n ∧
      (Relationship.init (some n) (some s) (some d) (some c) (some v) (some rt)
        (some fe) (some te)).Summary = s ∧
      (Relationship.init (some n) (some s) (some d) (some c) (some v) (some rt)
        (some fe) (some te)).Description = d ∧
      (Relationship.init (some n) (some s) (some d) (some c) (some v) (some rt)
        (some fe) (some te)).Comment = c ∧
      (Relationship.init (some n) (some s) (some d) (some c) (some v) (some rt)
        (some fe) (some te)).VerifiedWith = v ∧
      (Relationship.init (some n) (some s) (some d) (some c) (some v) (some rt)
        (some fe) (some te)).RelationshipType = rt ∧
      (Relationship.init (some n) (some s) (some d) (some c) (some v) (some rt)
        (some fe) (some te)).From = fe ∧
      (Relationship.init (some n) (some s) (some d) (some c) (some v) (some rt)
        (some fe) (some te)).To = te ∧
      (Relationship.init (some n) (some s) (some d) (some c) (some v) (some rt)
        (some fe) (some te)).VerfiedWith = v) ∧
    (∀ n s d c v ns cr ce er pr : PyVal,
      (SpdxDocument.init (some n) (some s) (some d) (some c) (some v) (some ns)
        (some cr) (some ce) (some er) (some pr)).Name = n ∧
      (SpdxDocument.init (some n) (some s) (some d) (some c) (some v) (some ns)
        (some cr) (some ce) (some er) (some pr)).Summary = s ∧
      (SpdxDocument.init (some n) (some s) (some d) (some c) (some v) (some ns)
        (some cr) (some ce) (some er) (some pr)).Description = d ∧
      (SpdxDocument.init (some n) (some s) (some d) (some c) (some v) (some ns)
        (some cr) (some ce) (some er) (some pr)).Comment = c ∧
      (SpdxDocument.init (some n) (some s) (some d) (some c) (some v) (some ns)
        (some cr) (some ce) (some er) (some pr)).VerifiedWith = v ∧
      (SpdxDocument.init (some n) (some s) (some d) (some c) (some v) (some ns)
        (some cr) (some ce) (some er) (some pr)).Namespace = ns ∧
      (SpdxDocument.init (some n) (some s) (some d) (some c) (some v) (some ns)
        (some cr) (some ce) (some er) (some pr)).Created = cr ∧
      (SpdxDocument.init (some n) (some s) (some d) (some c) (some v) (some ns)
        (some cr) (some ce) (some er) (some pr)).Creator = ce ∧
      (SpdxDocument.init (some n) (some s) (some d) (some c) (some v) (some ns)
        (some cr) (some ce) (some er) (some pr)).ExternalDocumentReferences = er ∧
      (SpdxDocument.init (some n) (some s) (some d) (some c) (some v) (some ns)
        (some cr) (some ce) (some er) (some pr)).Profiles = pr) ∧
    (∀ n s d c v u sp o er : PyVal,
      (Artifact.init (some n) (some s) (some d) (some c) (some v) (some u)
        (some sp) (some o) (some er)).Name = n ∧
      (Artifact.init (some n) (some s) (some d) (some c) (some v) (some u)
        (some sp) (some o) (some er)).Summary = s ∧
      (Artifact.init (some n) (some s) (some d) (some c) (some v) (some u)
        (some sp) (some o) (some er)).Description = d ∧
      (Artifact.init (some n) (some s) (some d) (some c) (some v) (some u)
        (some sp) (some o) (some er)).Comment = c ∧
      (Artifact.init (some n) (some s) (some d) (some c) (some v) (some u)
        (some sp) (some o) (some er)).VerifiedWith = v ∧
      (Artifact.init (some n) (some s) (some d) (some c) (some v) (some u)
        (some sp) (some o) (some er)).ArtifactUrl = u ∧
      (Artifact.init (some n) (some s) (some d) (some c) (some v) (some u)
        (some sp) (some o) (some er)).Supplier = sp ∧
      (Artifact.init (some n) (some s) (some d) (some c) (some v) (some u)
        (some sp) (some o) (some er)).Originator = o ∧
      (Artifact.init (some n) (some s) (some d) (some c) (some v) (some u)
        (some sp) (some o) (some er)).ExternalReferences = er) ∧
    (∀ n s d c v u sp o er ver : PyVal,
      (Package.init (some n) (some s) (some d) (some c) (some v) (some u)
        (some sp) (some o) (some er) (some ver)).Name = n ∧
      (Package.init (some n) (some s) (some d) (some c) (some v) (some u)
        (some sp) (some o) (some er) (some ver)).VerifiedWith = v ∧
      (Package.init (some n) (some s) (some d) (some c) (some v) (some u)
        (some sp) (some o) (some er) (some ver)).ArtifactUrl = u ∧
      (Package.init (some n) (some s) (some d) (some c) (some v) (some u)
        (some sp) (some o) (some er) (some ver)).Supplier = sp ∧
      (Package.init (some n) (some s) (some d) (some c) (some v) (some u)
        (some sp) (some o) (some er) (some ver)).Originator = o ∧
      (Package.init (some n) (some s) (some d) (some c) (some v) (some u)
        (some sp) (some o) (some er) (some ver)).ExternalReferences = er ∧
      (Package.init (some n) (some s) (some d) (some c) (some v) (some u)
        (some sp) (some o) (some er) (some ver)).Version = ver) ∧
    (∀ n s d c v u sp o er ft : PyVal,
      (File.init (some n) (some s) (some d) (some c) (some v) (some u)
        (some sp) (some o) (some er) (some ft)).Name = n ∧
      (File.init (some n) (some s) (some d) (some c) (some v) (some u)
        (some sp) (some o) (some er) (some ft)).ExternalReferences = er ∧
      (File.init (some n) (some s) (some d) (some c) (some v) (some u)
        (some sp) (some o) (some er) (some ft)).FileType = ft) ∧
    (∀ n s d c v u sp o er br lr : PyVal,
      (Snippet.init (some n) (some s) (some d) (some c) (some v) (some u)
        (some sp) (some o) (some er) (some br) (some lr)).Name = n ∧
      (Snippet.init (some n) (some s) (some d) (some c) (some v) (some u)
        (some sp) (some o) (some er) (some br) (some lr)).ExternalReferences = er ∧
      (Snippet.init (some n) (some s) (some d) (some c) (some v) (some u)
        (some sp) (some o) (some er) (some br) (some lr)).ByteRange = br ∧
      (Snippet.init (some n) (some s) (some d) (some c) (some v) (some u)
        (some sp) (some o) (some er) (some br) (some lr)).LineRange = lr) ∧
    ((Hash.init (some (.str "SHA256")) (some (.str "abc123"))).HashAlgorithm
        = PyVal.str "SHA256" ∧
      (Hash.init (some (.str "SHA256")) (some (.str "abc123"))).Value
        = PyVal.str "abc123") :=
  ⟨fun _ _ => ⟨rfl, rfl⟩,
   fun _ _ _ _ => ⟨rfl, rfl, rfl, rfl⟩,
   fun _ _ _ => ⟨rfl, rfl, rfl⟩,
   fun _ _ _ _ _ => ⟨rfl, rfl, rfl, rfl, rfl⟩,
   fun _ _ _ _ _ _ => ⟨rfl, rfl, rfl, rfl, rfl, rfl⟩,
   fun _ _ _ _ _ _ _ _ => ⟨rfl, rfl, rfl, rfl, rfl, rfl, rfl, rfl, rfl⟩,
   fun _ _ _ _ _ _ _ _ _ _ => ⟨rfl, rfl, rfl, rfl, rfl, rfl, rfl, rfl, rfl, rfl⟩,
   fun _ _ _ _ _ _ _ _ _ => ⟨rfl, rfl, rfl, rfl, rfl, rfl, rfl, rfl, rfl⟩,
   fun _ _ _ _ _ _ _ _ _ _ => ⟨rfl, rfl, rfl, rfl, rfl, rfl, rfl⟩,
   fun _ _ _ _ _ _ _ _ _ _ => ⟨rfl, rfl, rfl⟩,
   fun _ _ _ _ _ _ _ _ _ _ _ => ⟨rfl, rfl, rfl, rfl⟩,
   ⟨rfl, rfl⟩⟩

/-- Claim C4, counterexample: an `SpdxDocumentReference` constructed
with the `verification` argument omitted stores the abstract
`IntegrityMethod` class object itself in `VerifiedWith` — exactly what
the claim says never happens. -/
theorem c4_counterexample_omitted_verification_stores_abstract_class :
    (SpdxDocumentReference.init none none none).VerifiedWith
      = PyVal.classObj "IntegrityMethod" := rfl

/-- Claim C4 as amended: when a `verification` argument is supplied it
is stored verbatim in `VerifiedWith` (so a concrete variant supplied
stays concrete), but when the argument is omitted `VerifiedWith`
defaults to the abstract `IntegrityMethod` class object itself. -/
theorem c4_amended_verification_stored_or_abstract_default :
    (∀ (d l : Option PyVal) (v : PyVal),
      (SpdxDocumentReference.init d l (some v)).VerifiedWith = v) ∧
    (∀ d l : Option PyVal,
      (SpdxDocumentReference.init d l none).VerifiedWith
        = PyVal.classObj "IntegrityMethod") :=
  ⟨fun _ _ _ => rfl, fun _ _ => rfl⟩

/-- Claim C5: for every `SpdxDocument`, however constructed — any
combination of supplied or omitted arguments — `SPDXVersion` and
`DataLicense` are the fixed constant `3.0`; no constructor argument
can set or alter them. -/
theorem c5_spdx_version_and_data_license_fixed :
    ∀ n s d c v ns cr ce er pr : Option PyVal,
      (SpdxDocument.init n s d c v ns cr ce er pr).SPDXVersion
          = PyVal.float 3 ∧
      (SpdxDocument.init n s d c v ns cr ce er pr).DataLicense
          = PyVal.float 3 :=
  fun _ _ _ _ _ _ _ _ _ _ => ⟨rfl, rfl⟩

/-- Claim C6: calling the abstract `IntegrityMethod` capability
directly fails at construction time with a `TypeError` (Python's ABC
rule: both `generate` and `verify` are unimplemented abstract
methods), while the concrete variant `Hash`, which implements both, is
instantiable. -/
theorem c6_abstract_integrity_method_not_instantiable :
    instantiateClass IntegrityMethodClass
        = PyConstructionResult.typeError "IntegrityMethod" ∧
    instantiateClass HashClass = PyConstructionResult.ok "Hash" :=
  ⟨rfl, rfl⟩

/-- Claim C7: `RelationshipType` is a closed enumeration of exactly 16
values — the 16 named members, no duplicates — and every
`Relationship` whose `relationship_type` is drawn from the enumeration
stores a member that is one of these 16. -/
theorem c7_relationship_type_closed_enumeration_of_sixteen :
    Fintype.card RelationshipType = 16 ∧
    allRelationshipTypes.length = 16 ∧
    allRelationshipTypes.Nodup ∧
    ∀ t : RelationshipType,
      (Relationship.init none none none none none (some (.relMember t))
          none none).RelationshipType = PyVal.relMember t ∧
      t ∈ allRelationshipTypes := by
  refine ⟨by decide, rfl, by decide, fun t => ⟨rfl, ?_⟩⟩
  cases t <;> decide

/-- Claim C8: for every `Hash` instance, whatever algorithm and value
it was constructed with, `generate()` returns the empty placeholder
string. -/
theorem c8_hash_generate_returns_empty_placeholder :
    ∀ h : Hash, h.generate = PyVal.str "" :=
  fun _ => rfl

/-- Claim C9: for every `Hash` instance and candidate value `v`,
`verify(v)` returns `v` unchanged; in particular
`Hash().verify("x")` returns `"x"`. -/
theorem c9_hash_verify_is_pass_through :
    (∀ (h : Hash) (v : PyVal), h.verify (some v) = v) ∧
    (Hash.init none none).verify (some (.str "x")) = PyVal.str "x" :=
  ⟨fun _ _ => rfl, rfl⟩

/-- Claim C10, the code evaluated at the failing input: two `Artifact`s
constructed with `external_references` omitted (one of them with a
different name, so they are distinct instances) hold the very same
module-level default list object, and likewise two `Package`s and two
`SpdxDocument`s (for both `external_document_references` and
`profiles`) — the containers are shared defaults evaluated once at
function definition time, never fresh per-instance allocations. -/
theorem c10_omitted_list_defaults_shared_between_instances :
    (Artifact.init none none none none none none none none none).Name
        ≠ (Artifact.init (some (.str "a1")) none none none none none none none
            none).Name ∧
    (Artifact.init none none none none none none none none none).ExternalReferences
        = (Artifact.init (some (.str "a1")) none none none none none none none
            none).ExternalReferences ∧
    (Artifact.init none none none none none none none none none).ExternalReferences
        = PyVal.listRef artifactExternalReferencesDefaultAddr ∧
    (Package.init none none none none none none none none none
          none).ExternalReferences
        = (Package.init (some (.str "p1")) none none none none none none none none
            none).ExternalReferences ∧
    (SpdxDocument.init none none none none none none none none none
          none).ExternalDocumentReferences
        = (SpdxDocument.init (some (.str "d1")) none none none none none none none
            none none).ExternalDocumentReferences ∧
    (SpdxDocument.init none none none none none none none none none none).Profiles
        = (SpdxDocument.init (some (.str "d1")) none none none none none none none
            none none).Profiles := by
  refine ⟨?_, rfl, rfl, rfl, rfl, rfl⟩
  decide

end SpdxDataModel
